import Mathlib

/-!
Shallow embedding of the Blender addon `webcam_uv_texture_stream`
(source file `__init__.py`).  The host application's data blocks
(images, materials with shading node graphs, scene objects) are
modelled as plain records collected in a `World`; Python reference
semantics are modelled by treating the (host-unique) data-block names
as keys and writing mutated records back by name.  The external camera
backend (cv2) is modelled as an oracle: each tick receives an optional
raw frame (`none` = `cap.read()` returned `ret = False`).  Pixel
values, which the source stores as float32 in [0,1], are modelled as
rationals.
-/

/-- A Blender image data block (`bpy.data.images` element).  `pixels` is the
flattened RGBA float buffer; `filepath_raw` / `file_format` are the fields the
save operator assigns before `img.save()`. -/
structure Image where
  name : String
  width : Nat
  height : Nat
  pixels : List ℚ
  filepath_raw : String
  file_format : String
deriving DecidableEq, Repr

/-- A shading node of a material node tree.  `ntype` is the bpy type
identifier (for instance "ShaderNodeTexImage"); `image` is the image
data-block assigned to a texture node, recorded by name. -/
structure ShaderNode where
  name : String
  ntype : String
  label : String
  image : Option String
deriving DecidableEq, Repr

/-- A node socket reference: owning node name plus socket name. -/
structure Socket where
  node : String
  socket : String
deriving DecidableEq, Repr

/-- A link of a material node tree (`node_tree.links` element). -/
structure NodeLink where
  from_socket : Socket
  to_socket : Socket
deriving DecidableEq, Repr

/-- A material data block with its node tree. -/
structure Material where
  name : String
  use_nodes : Bool
  nodes : List ShaderNode
  links : List NodeLink
deriving DecidableEq, Repr

/-- A scene object.  `otype` is `obj.type` and `materials` is the list of
material-slot assignments (`obj.data.materials`), recorded by name. -/
structure Obj where
  name : String
  otype : String
  materials : List String
deriving DecidableEq, Repr

/-- The scene-level configuration properties registered by the addon.
The target object pointer is recorded by object name. -/
structure Scene where
  webcam_image_name : String
  webcam_material_name : String
  webcam_target_object : Option String
  webcam_image_width : Int
  webcam_image_height : Int
deriving DecidableEq, Repr

/-- The host data blocks (`bpy.data`). -/
structure BlendData where
  images : List Image
  materials : List Material
  objects : List Obj
deriving DecidableEq, Repr

/-- The addon's global `_WebcamState` singleton (`STATE`).  `has_operator`
records whether `STATE.operator` is set. -/
structure WebcamState where
  running : Bool
  last_error : String
  has_operator : Bool
deriving DecidableEq, Repr

/-- The whole observable program state: host data, scene configuration and
the addon's global state. -/
structure World where
  data : BlendData
  scene : Scene
  state : WebcamState
deriving DecidableEq, Repr

/-- `_WebcamState.set_error`: records the message (the accompanying
`print` has no modelled effect). -/
def setError (s : WebcamState) (msg : String) : WebcamState :=
  { s with last_error := msg }

def IMAGE_DEFAULT : String := "Webcam_Feed"

def DEFAULT_MATERIAL_NAME : String := "Webcam_Material"

/-- `bpy.data.images.get`. -/
def getImage (d : BlendData) (n : String) : Option Image :=
  d.images.find? (fun i => i.name == n)

/-- `bpy.data.materials.get`. -/
def getMaterial (d : BlendData) (n : String) : Option Material :=
  d.materials.find? (fun m => m.name == n)

/-- Dereference an object pointer (objects are keyed by their unique name). -/
def getObject (d : BlendData) (n : String) : Option Obj :=
  d.objects.find? (fun o => o.name == n)

/-- `nodes.get`. -/
def getNode (nodes : List ShaderNode) (n : String) : Option ShaderNode :=
  nodes.find? (fun nd => nd.name == n)

/-- Python `str.strip()` (leading and trailing whitespace removed),
implemented over the character list. -/
def pyStrip (s : String) : String :=
  String.mk (((s.toList.dropWhile Char.isWhitespace).reverse.dropWhile
      Char.isWhitespace).reverse)

/-- Python `str.lower()`. -/
def pyLower (s : String) : String :=
  String.mk (s.toList.map Char.toLower)

/-- Python `str.endswith(suffix)`. -/
def pyEndsWith (s suffix : String) : Bool :=
  suffix.toList.isSuffixOf s.toList

/-- The image name computed by `_ensure_material_for_object` (lines 51-52):
`img_base = scene.webcam_image_name.strip() or IMAGE_DEFAULT` followed by
`f"{img_base}_{obj.name}"`. -/
def ensureImgName (scene : Scene) (objName : String) : String :=
  let img_base := if pyStrip scene.webcam_image_name = "" then IMAGE_DEFAULT
    else pyStrip scene.webcam_image_name
  img_base ++ "_" ++ objName

/-- The image name computed by `WM_OT_webcam_save_png.execute` (lines
242-243), written independently so the two computations can be compared. -/
def saveImgName (scene : Scene) (objName : String) : String :=
  let img_base := if pyStrip scene.webcam_image_name = "" then IMAGE_DEFAULT
    else pyStrip scene.webcam_image_name
  img_base ++ "_" ++ objName

/-- `mat_base = scene.webcam_material_name.strip() or DEFAULT_MATERIAL_NAME`
(line 62). -/
def matBaseName (scene : Scene) : String :=
  if pyStrip scene.webcam_material_name = "" then DEFAULT_MATERIAL_NAME
  else pyStrip scene.webcam_material_name

/-- Write a (possibly new) material data block back into `bpy.data`:
a mutation of an existing block replaces it (by its unique name); a block
created by `materials.new` is appended. -/
def putMaterial (d : BlendData) (m : Material) : BlendData :=
  if d.materials.any (fun x => x.name == m.name) then
    { d with materials := d.materials.map (fun x => if x.name == m.name then m else x) }
  else
    { d with materials := d.materials ++ [m] }

/-- Write a mutated object back into `bpy.data` (objects are keyed by
their unique name). -/
def putObject (d : BlendData) (o : Obj) : BlendData :=
  { d with objects := d.objects.map (fun x => if x.name == o.name then o else x) }

/-- Write a mutated image back into `bpy.data`. -/
def putImage (d : BlendData) (i : Image) : BlendData :=
  { d with images := d.images.map (fun x => if x.name == i.name then i else x) }

/-- `bpy.data.images.new(name, width, height, alpha=True, float_buffer=False)`;
the host initialises the pixel buffer (fill colour irrelevant here). -/
def newImage (n : String) (w h : Nat) : Image :=
  { name := n, width := w, height := h, pixels := List.replicate (w * h * 4) 0,
    filepath_raw := "", file_format := "" }

def addImage (d : BlendData) (i : Image) : BlendData :=
  { d with images := d.images ++ [i] }

/-- The host's default name for a node of the given type, as assigned by
`nodes.new`. -/
def defaultNodeName : String → String
  | "ShaderNodeTexImage" => "Image Texture"
  | "ShaderNodeBsdfPrincipled" => "Principled BSDF"
  | "ShaderNodeOutputMaterial" => "Material Output"
  | t => t

/-- `nodes.new(ntype)`: a fresh node carrying the host's default name for its
type.  (The host uniquifies colliding names; the addon only keeps names it
has first checked to be absent, so plain naming is observationally equal.) -/
def newNode (ntype : String) : ShaderNode :=
  { name := defaultNodeName ntype, ntype := ntype, label := "", image := none }

/-- `bpy.data.materials.new(name)`: a fresh material (node tree empty until
`use_nodes` is enabled). -/
def newMaterial (n : String) : Material :=
  { name := n, use_nodes := false, nodes := [], links := [] }

/-- Lines 72-77: get the "Webcam Image" texture node, creating and renaming it
when absent (the `location` assignment has no modelled effect). -/
def ensureTexNode (mat : Material) : Material :=
  match getNode mat.nodes "Webcam Image" with
  | some _ => mat
  | none =>
    { mat with nodes := mat.nodes ++
        [{ newNode "ShaderNodeTexImage" with name := "Webcam Image", label := "Webcam Image" }] }

/-- Line 78: `tex_node.image = img` (the node found or created under the name
"Webcam Image"). -/
def setTexImage (mat : Material) (imgName : String) : Material :=
  let f := fun (nd : ShaderNode) =>
    if nd.name == "Webcam Image" then { nd with image := some imgName } else nd
  { mat with nodes := mat.nodes.map f }

/-- Lines 80-83: get or create the "Principled BSDF" node. -/
def ensureBsdfNode (mat : Material) : Material :=
  match getNode mat.nodes "Principled BSDF" with
  | some _ => mat
  | none => { mat with nodes := mat.nodes ++ [newNode "ShaderNodeBsdfPrincipled"] }

/-- Lines 85-88: get or create the "Material Output" node. -/
def ensureOutputNode (mat : Material) : Material :=
  match getNode mat.nodes "Material Output" with
  | some _ => mat
  | none => { mat with nodes := mat.nodes ++ [newNode "ShaderNodeOutputMaterial"] }

/-- Lines 90-94: `ensure_link` — scan the existing links for one with the
same endpoints; append a new link only when none is found. -/
def ensureLink (links : List NodeLink) (outS inS : Socket) : List NodeLink :=
  if links.any (fun l => decide (l.from_socket = outS ∧ l.to_socket = inS)) then links
  else links ++ [{ from_socket := outS, to_socket := inS }]

/-- Lines 62-104 of `_ensure_material_for_object`: the part after the image
has been found or created — material get-or-create, `use_nodes = True`, node
and link wiring, and the material-slot assignment on the object. -/
def ensureMaterialRest (w : World) (obj : Obj) (img : Image) :
    World × Option (Image × Material) :=
  let mat_name := matBaseName w.scene ++ "_" ++ obj.name
  let mat0 := match getMaterial w.data mat_name with
    | some m => m
    | none => newMaterial mat_name
  let mat1 := { mat0 with use_nodes := true }
  let mat2 := ensureTexNode mat1
  let mat3 := setTexImage mat2 img.name
  let mat4 := ensureBsdfNode mat3
  let mat5 := ensureOutputNode mat4
  let links1 := ensureLink mat5.links ⟨"Webcam Image", "Color"⟩ ⟨"Principled BSDF", "Base Color"⟩
  let links2 := ensureLink links1 ⟨"Principled BSDF", "BSDF"⟩ ⟨"Material Output", "Surface"⟩
  let mat6 := { mat5 with links := links2 }
  let obj' := if obj.materials.isEmpty then { obj with materials := [mat_name] }
    else { obj with materials := obj.materials.set 0 mat_name }
  let d1 := putMaterial w.data mat6
  let d2 := putObject d1 obj'
  ({ w with data := d2 }, some (img, mat6))

/-- `_ensure_material_for_object(context, obj)` (lines 42-104).  The `obj`
argument is the scene's target-object pointer, modelled by name. -/
def ensureMaterialForObject (w : World) (objName : Option String) :
    World × Option (Image × Material) :=
  match objName.bind (fun n => getObject w.data n) with
  | none => ({ w with state := setError w.state "No target object selected." }, none)
  | some obj =>
    if obj.otype ≠ "MESH" then
      ({ w with state := setError w.state "Target object must be a mesh." }, none)
    else
      let img_name := ensureImgName w.scene obj.name
      match getImage w.data img_name with
      | some img => ensureMaterialRest w obj img
      | none =>
        let wd := w.scene.webcam_image_width
        let ht := w.scene.webcam_image_height
        if wd ≤ 0 ∨ ht ≤ 0 then
          ({ w with state := setError w.state "Invalid image size." }, none)
        else
          let img := newImage img_name wd.toNat ht.toNat
          ensureMaterialRest { w with data := addImage w.data img } obj img

/-- The per-operator attributes of `WM_OT_webcam_stream_start`
(`_timer`, `_cap`, `_img`, `_size`, `_obj`); image and object references
are recorded by name, the timer and device handles by id. -/
structure OpState where
  timer : Option Nat
  cap : Option Nat
  img : Option String
  size : Option (Nat × Nat)
  obj : Option String
deriving DecidableEq, Repr

/-- Host resources held outside the addon: count of open camera device
handles (`cv2.VideoCapture`) and of registered window-manager timers. -/
structure Host where
  openDevices : Nat
  timers : Nat
deriving DecidableEq, Repr

/-- Operator / modal return values. -/
inductive OpResult where
  | FINISHED
  | CANCELLED
  | RUNNING_MODAL
  | PASS_THROUGH
deriving DecidableEq, Repr

/-- Modal event types relevant to the handler. -/
inductive EventType where
  | ESC
  | TIMER
  | OTHER
deriving DecidableEq, Repr

/-- A raw frame delivered by the capture backend: `rows × cols` of 8-bit
BGR samples (numpy dtype uint8 modelled as `Fin 256`). -/
structure RawFrame where
  rows : Nat
  cols : Nat
  px : Nat → Nat → Fin 3 → Fin 256

/-- Model of the external `cv2.resize(frame, size, INTER_AREA)` call: the
vision library is a black box per the spec; it returns a frame of the
requested `(width, height)` size whose samples are again 8-bit values
(here drawn from the source frame by index resampling — only the shape
and the 8-bit sample range are relied upon). -/
def resizeFrame (f : RawFrame) (size : Nat × Nat) : RawFrame :=
  { rows := size.2, cols := size.1,
    px := fun i j c => f.px (i * f.rows / size.2) (j * f.cols / size.1) c }

/-- Model of `cv2.cvtColor(resized, COLOR_BGR2RGB)`: reverse the channel
order of every sample. -/
def bgr2rgb (f : RawFrame) : RawFrame :=
  { f with px := fun i j c => f.px i j c.rev }

/-- The four channel values pixel `k` (row-major) contributes to the
flattened buffer: the three colour channels normalised by 255, then the
alpha value 1 kept from `np.ones`. -/
def rgbaChunk (g : RawFrame) (cols : Nat) (k : Nat) : List ℚ :=
  [((g.px (k / cols) (k % cols) 0).val : ℚ) / 255,
   ((g.px (k / cols) (k % cols) 1).val : ℚ) / 255,
   ((g.px (k / cols) (k % cols) 2).val : ℚ) / 255,
   1]

/-- Lines 153-157: `rgba = np.ones((size[1], size[0], 4), float32)`,
`rgba[:,:,:3] = rgb.astype(float32)/255.0`, flattened row-major over the
`size[1] × size[0]` pixel grid. -/
def rgbaFlatten (size : Nat × Nat) (g : RawFrame) : List ℚ :=
  (List.range (size.2 * size.1)).flatMap (rgbaChunk g size.1)

/-- The full per-tick frame transform (lines 145-157): resize to the bound
image's size, convert BGR→RGB, normalise to [0,1] and add alpha = 1. -/
def framePixels (size : Nat × Nat) (f : RawFrame) : List ℚ :=
  rgbaFlatten size (bgr2rgb (resizeFrame f size))

/-- `self._img.pixels = ...`: write the flattened buffer into the bound
image data block. -/
def setImagePixels (w : World) (n : String) (ps : List ℚ) : World :=
  let f := fun (i : Image) => if i.name == n then { i with pixels := ps } else i
  { w with data := { w.data with images := w.data.images.map f } }

/-- Lines 130-140 of `modal`: the target-tracking prologue of a TIMER tick.
Returns the updated world and operator state, plus `true` when execution
falls through to the frame read (`false` models the early
`return {'PASS_THROUGH'}` paths). -/
def rebind (w : World) (op : OpState) : World × OpState × Bool :=
  match w.scene.webcam_target_object with
  | none => (w, op, false)
  | some curName =>
    if op.obj = some curName then (w, op, true)
    else
      let res := ensureMaterialForObject w (some curName)
      match res.2 with
      | none => (res.1, op, false)
      | some (img, _mat) =>
        let op1 := { op with obj := some curName }
        let op2 := { op1 with img := some img.name }
        let op3 := { op2 with size := some (img.width, img.height) }
        (res.1, op3, true)

/-- `WM_OT_webcam_stream_start.cancel` (lines 202-215). -/
def cancelOp (w : World) (op : OpState) (host : Host) : World × OpState × Host :=
  let host := match op.timer with
    | some _ => { host with timers := host.timers - 1 }
    | none => host
  let host := match op.cap with
    | some _ => { host with openDevices := host.openDevices - 1 }
    | none => host
  ({ w with state := { w.state with running := false, has_operator := false } }, op, host)

/-- `WM_OT_webcam_stream_start.modal` (lines 124-164).  `read` is the
oracle for `self._cap.read()`: `none` models `ret = False`.  The viewport
redraw request has no modelled effect.  (The `op.size`/`op.img` fields are
always set in sessions created by `execute`; the defensive fall-through
mirrors the unreachable unset case.) -/
def modal (w : World) (op : OpState) (host : Host) (ev : EventType)
    (read : Option RawFrame) : World × OpState × Host × OpResult :=
  match ev with
  | .ESC =>
    match cancelOp w op host with
    | (w', op', host') => (w', op', host', .CANCELLED)
  | .TIMER =>
    match rebind w op with
    | (w1, op1, proceed) =>
      if proceed then
        match read with
        | none => (w1, op1, host, .PASS_THROUGH)
        | some frame =>
          match op1.size, op1.img with
          | some sz, some imgName =>
            (setImagePixels w1 imgName (framePixels sz frame), op1, host, .PASS_THROUGH)
          | _, _ => (w1, op1, host, .PASS_THROUGH)
      else (w1, op1, host, .PASS_THROUGH)
  | .OTHER => (w, op, host, .PASS_THROUGH)

/-- `WM_OT_webcam_stream_start.execute` (lines 166-200).  `cv2Available`
models the import-time `_CV2_AVAILABLE` flag; opening `cv2.VideoCapture(0)`
increments the host's open-device count (the requested 1280x720 capture
resolution is best-effort on the device and has no modelled effect). -/
def startExecute (cv2Available : Bool) (w : World) (op : OpState) (host : Host) :
    World × OpState × Host × OpResult :=
  if w.state.running then (w, op, host, .FINISHED)
  else if !cv2Available then
    let msg := "OpenCV (cv2) is not available. Install it in the Blender Python environment."
    ({ w with state := setError w.state msg }, op, host, .CANCELLED)
  else
    let res := ensureMaterialForObject w w.scene.webcam_target_object
    let w1 := res.1
    match res.2 with
    | none => (w1, op, host, .CANCELLED)
    | some (img, _mat) =>
      let host1 := { host with openDevices := host.openDevices + 1 }
      let opA := { op with cap := some host.openDevices }
      let opB := { opA with obj := w.scene.webcam_target_object }
      let opC := { opB with img := some img.name }
      let opD := { opC with size := some (img.width, img.height) }
      let host2 := { host1 with timers := host1.timers + 1 }
      let opE := { opD with timer := some host1.timers }
      let st2 : WebcamState := { running := true, last_error := "", has_operator := true }
      let w2 := { w1 with state := st2 }
      (w2, opE, host2, .RUNNING_MODAL)

/-- `WM_OT_webcam_save_png.execute` (lines 237-260).  The middle component
of the result is the path the PNG file is written to (`none` = no file
written). -/
def savePngExecute (w : World) (filepath : String) :
    World × Option String × OpResult :=
  match w.scene.webcam_target_object.bind (fun n => getObject w.data n) with
  | none => ({ w with state := setError w.state "No target object selected." },
             none, .CANCELLED)
  | some obj =>
    let img_name := saveImgName w.scene obj.name
    match getImage w.data img_name with
    | none => ({ w with state := setError w.state ("Image not found: " ++ img_name) },
               none, .CANCELLED)
    | some img =>
      let path := pyStrip filepath
      if path = "" then
        ({ w with state := setError w.state "No file path selected." }, none, .CANCELLED)
      else
        let path := if pyEndsWith (pyLower path) ".png" then path else path ++ ".png"
        let img' := { img with filepath_raw := path, file_format := "PNG" }
        ({ w with data := putImage w.data img' }, some path, .FINISHED)

/-- Sample object used by the concrete witnesses below. -/
def cubeObj : Obj := { name := "Cube", otype := "MESH", materials := [] }

/-- Sample scene configuration (default prefixes, target set, 64x32). -/
def sceneDefault : Scene :=
  { webcam_image_name := "Webcam_Feed", webcam_material_name := "Webcam_Material",
    webcam_target_object := some "Cube", webcam_image_width := 64,
    webcam_image_height := 32 }

/-- Sample world: one mesh object, no images or materials yet. -/
def W0 : World :=
  { data := { images := [], materials := [], objects := [cubeObj] },
    scene := sceneDefault,
    state := { running := false, last_error := "", has_operator := false } }

/-- Sample bound image (pixel contents kept trivial so that concrete
witnesses evaluate cheaply). -/
def feedImage : Image :=
  { name := "Webcam_Feed_Cube", width := 64, height := 32,
    pixels := [], filepath_raw := "", file_format := "" }

/-- Sample world in which the bound image already exists. -/
def W1 : World := { W0 with data := { W0.data with images := [feedImage] } }


/-! ### Helper lemmas about the resolver's effects -/

theorem ensureMaterialRest_state (w : World) (o : Obj) (i : Image) :
    (ensureMaterialRest w o i).1.state = w.state := rfl

theorem ensureMaterialRest_scene (w : World) (o : Obj) (i : Image) :
    (ensureMaterialRest w o i).1.scene = w.scene := rfl

theorem ensureMaterialRest_images (w : World) (o : Obj) (i : Image) :
    (ensureMaterialRest w o i).1.data.images = w.data.images := by
  unfold ensureMaterialRest putObject putMaterial
  dsimp only
  split <;> rfl

theorem ensureMaterialRest_isSome (w : World) (o : Obj) (i : Image) :
    ∃ m, (ensureMaterialRest w o i).2 = some (i, m) := ⟨_, rfl⟩

theorem ensure_running (w : World) (x : Option String) :
    (ensureMaterialForObject w x).1.state.running = w.state.running := by
  unfold ensureMaterialForObject
  dsimp only
  split
  · rfl
  · split
    · rfl
    · split
      · rw [ensureMaterialRest_state]
      · split
        · rfl
        · rw [ensureMaterialRest_state]

theorem ensure_images_or (w : World) (x : Option String) :
    (ensureMaterialForObject w x).1.data.images = w.data.images ∨
    ∃ i, (ensureMaterialForObject w x).1.data.images = w.data.images ++ [i] := by
  unfold ensureMaterialForObject
  dsimp only
  split
  · left; rfl
  · split
    · left; rfl
    · split
      · left; exact ensureMaterialRest_images _ _ _
      · split
        · left; rfl
        · right
          exact ⟨_, ensureMaterialRest_images _ _ _⟩

theorem ensure_getImage_stable (w : World) (x : Option String) (n : String)
    (i : Image) (h : getImage w.data n = some i) :
    getImage (ensureMaterialForObject w x).1.data n = some i := by
  rcases ensure_images_or w x with he | ⟨j, he⟩
  · rw [getImage, he]; exact h
  · rw [getImage, he, List.find?_append]
    rw [getImage] at h
    rw [h]
    rfl

theorem ensure_state_or (w : World) (x : Option String) :
    (ensureMaterialForObject w x).1.state = w.state ∨
    (ensureMaterialForObject w x).2 = none := by
  unfold ensureMaterialForObject
  dsimp only
  split
  · right; rfl
  · split
    · right; rfl
    · split
      · left; exact ensureMaterialRest_state _ _ _
      · split
        · right; rfl
        · left; rw [ensureMaterialRest_state]

theorem ensureMaterialRest_ne_none (w : World) (o : Obj) (i : Image) :
    (ensureMaterialRest w o i).2 ≠ none := by
  obtain ⟨m, hm⟩ := ensureMaterialRest_isSome w o i
  simp [hm]

/-! ### C10: the save operator and the resolver compute the same image name -/

/-- C10: for every scene state (and so for every image-name prefix) and
every target object name, the image name the save-as-png operator looks up
(`saveImgName`, lines 242-243) is exactly the image name the target-binding
resolver creates or resolves (`ensureImgName`, lines 51-52): both take the
stripped prefix (falling back to "Webcam_Feed" when the stripped prefix is
empty) followed by "_" and the object's name. -/
theorem saveImgName_eq_ensureImgName :
    ∀ (scene : Scene) (objName : String),
      saveImgName scene objName = ensureImgName scene objName :=
  fun _ _ => rfl

/-! ### C2: start() is a no-op when already running -/

/-- C2: whenever the session is already running (`STATE.running = true`),
`WM_OT_webcam_stream_start.execute` returns the success status FINISHED,
opens no second device handle, registers no second timer, and leaves the
whole world, operator state and host state unchanged. -/
theorem start_when_running_noop (b : Bool) (w : World) (op : OpState)
    (host : Host) (h : w.state.running = true) :
    startExecute b w op host = (w, op, host, .FINISHED) := by
  simp [startExecute, h]

/-- Sample empty operator state. -/
def op0 : OpState :=
  { timer := none, cap := none, img := none, size := none, obj := none }

/-- Sample host resource state. -/
def host0 : Host := { openDevices := 0, timers := 0 }

/-- Sample world with a running session. -/
def WR : World :=
  { W1 with state := { running := true, last_error := "", has_operator := true } }

theorem start_when_running_noop_witness :
    startExecute true WR op0 host0 = (WR, op0, host0, .FINISHED) :=
  start_when_running_noop true WR op0 host0 rfl

/-! ### C8: start() is atomic on failure -/

/-- C8: whenever `WM_OT_webcam_stream_start.execute` returns CANCELLED
(capture backend unavailable, or the target binding cannot be resolved),
no device handle has been opened and no timer has been registered (the
host resource counts are unchanged, and the operator's `_cap`/`_timer`
fields are untouched), and the running flag is false. -/
theorem start_failure_atomic (b : Bool) (w : World) (op : OpState) (host : Host)
    (h : (startExecute b w op host).2.2.2 = .CANCELLED) :
    (startExecute b w op host).2.2.1 = host ∧
    (startExecute b w op host).1.state.running = false ∧
    (startExecute b w op host).2.1.cap = op.cap ∧
    (startExecute b w op host).2.1.timer = op.timer := by
  by_cases hr : w.state.running = true
  · rw [start_when_running_noop b w op host hr] at h
    exact absurd h (by simp)
  · have hrun : (ensureMaterialForObject w w.scene.webcam_target_object).1.state.running
        = false := by
      rw [ensure_running]
      exact eq_false_of_ne_true hr
    unfold startExecute at h ⊢
    rw [if_neg hr] at h ⊢
    by_cases hb : b = true
    · subst hb
      rw [show (!true) = false from rfl] at h ⊢
      rw [if_neg (by simp)] at h ⊢
      dsimp only at h ⊢
      cases he : (ensureMaterialForObject w w.scene.webcam_target_object).2 with
      | none =>
        exact ⟨rfl, hrun, rfl, rfl⟩
      | some p =>
        rcases p with ⟨img, mat⟩
        rw [he] at h
        exact OpResult.noConfusion h
    · have hb' : b = false := by revert hb; cases b <;> simp
      subst hb'
      rw [show (!false) = true from rfl] at h ⊢
      rw [if_pos rfl] at h ⊢
      refine ⟨rfl, ?_, rfl, rfl⟩
      simp only [setError]
      exact eq_false_of_ne_true hr

theorem start_failure_atomic_witness :
    (startExecute false W0 op0 host0).2.2.1 = host0 ∧
    (startExecute false W0 op0 host0).1.state.running = false ∧
    (startExecute false W0 op0 host0).2.1.cap = op0.cap ∧
    (startExecute false W0 op0 host0).2.1.timer = op0.timer :=
  start_failure_atomic false W0 op0 host0 (by decide)

/-! ### C4: the save-as-png destination path -/

/-- C4: for every destination path whose stripped form is non-empty, and
any state in which the save operator reaches the path computation (target
object present, bound image found), the file is written to the stripped
path with ".png" appended when the (case-insensitively checked) extension
is absent, and to exactly the stripped path when it already ends in
".png" — never a doubled extension. -/
theorem save_png_path_correct (w : World) (p : String) (o : Obj) (i : Image)
    (hobj : w.scene.webcam_target_object.bind (fun n => getObject w.data n) = some o)
    (himg : getImage w.data (saveImgName w.scene o.name) = some i)
    (hp : pyStrip p ≠ "") :
    (savePngExecute w p).2.1 =
      some (if pyEndsWith (pyLower (pyStrip p)) ".png" then pyStrip p
        else pyStrip p ++ ".png") := by
  unfold savePngExecute
  rw [hobj]
  dsimp only
  rw [himg]
  dsimp only
  rw [if_neg hp]

set_option maxRecDepth 4000 in
theorem save_png_path_correct_witness :
    (savePngExecute W1 "foo").2.1 = some "foo.png" ∧
    (savePngExecute W1 "foo.png").2.1 = some "foo.png" := by
  constructor
  · have h := save_png_path_correct W1 "foo" cubeObj feedImage (by decide) (by decide)
      (by decide)
    rw [h]; decide
  · have h := save_png_path_correct W1 "foo.png" cubeObj feedImage (by decide) (by decide)
      (by decide)
    rw [h]; decide

/-! ### C7: failure conditions of the save-as-png operator -/

theorem string_append_ne_empty_left (a b : String) (ha : a ≠ "") : a ++ b ≠ "" := by
  intro h
  apply ha
  rcases a with ⟨d⟩
  rcases b with ⟨e⟩
  have h2 : d ++ e = [] := congrArg String.data h
  rcases List.append_eq_nil.mp h2 with ⟨hd, _⟩
  rw [hd]

/-- C7: the save operator fails — CANCELLED status, last-error set to a
non-empty message, no file written, `bpy.data` unchanged (in particular the
looked-up image is not created on the image-not-found branch) — exactly
when the target object is unset, or the deterministically computed image
name does not name an existing image, or the stripped destination path is
empty. -/
theorem save_png_failure_conditions (w : World) (p : String) :
    ((savePngExecute w p).2.2 = .CANCELLED ↔
      (w.scene.webcam_target_object.bind (fun n => getObject w.data n) = none ∨
        (∃ o, w.scene.webcam_target_object.bind (fun n => getObject w.data n) = some o ∧
          getImage w.data (saveImgName w.scene o.name) = none) ∨
        pyStrip p = "")) ∧
    ((savePngExecute w p).2.2 = .CANCELLED →
      (savePngExecute w p).2.1 = none ∧
      (savePngExecute w p).1.data = w.data ∧
      (savePngExecute w p).1.state.last_error ≠ "" ∧
      (savePngExecute w p).1.state.running = w.state.running) := by
  rcases hobj : w.scene.webcam_target_object.bind (fun n => getObject w.data n) with _ | o
  · have he1 : savePngExecute w p =
        ({ w with state := setError w.state "No target object selected." }, none,
          .CANCELLED) := by
      unfold savePngExecute
      rw [hobj]
    constructor
    · rw [he1]
      exact iff_of_true rfl (Or.inl rfl)
    · intro _
      rw [he1]
      refine ⟨rfl, rfl, ?_, rfl⟩
      show "No target object selected." ≠ ""
      decide
  · rcases himg : getImage w.data (saveImgName w.scene o.name) with _ | i
    · have he2 : savePngExecute w p = ({ w with state := setError w.state ("Image not found: " ++ saveImgName w.scene o.name) }, none, .CANCELLED) := by
        unfold savePngExecute
        rw [hobj]
        dsimp only
        rw [himg]
      constructor
      · rw [he2]
        exact iff_of_true rfl (Or.inr (Or.inl ⟨o, rfl, himg⟩))
      · intro _
        rw [he2]
        refine ⟨rfl, rfl, ?_, rfl⟩
        show ("Image not found: " ++ saveImgName w.scene o.name) ≠ ""
        exact string_append_ne_empty_left _ _ (by decide)
    · by_cases hp : pyStrip p = ""
      · have he3 : savePngExecute w p =
            ({ w with state := setError w.state "No file path selected." }, none,
              .CANCELLED) := by
          unfold savePngExecute
          rw [hobj]
          dsimp only
          rw [himg]
          dsimp only
          rw [if_pos hp]
        constructor
        · rw [he3]
          exact iff_of_true rfl (Or.inr (Or.inr hp))
        · intro _
          rw [he3]
          refine ⟨rfl, rfl, ?_, rfl⟩
          show "No file path selected." ≠ ""
          decide
      · have he4 : (savePngExecute w p).2.2 = .FINISHED := by
          unfold savePngExecute
          rw [hobj]
          dsimp only
          rw [himg]
          dsimp only
          rw [if_neg hp]
        constructor
        · rw [he4]
          refine iff_of_false (fun hc => OpResult.noConfusion hc) ?_
          rintro (hc | ⟨o', ho', hc⟩ | hc)
          · exact Option.noConfusion hc
          · rw [Option.some.injEq] at ho'
            rw [← ho'] at hc
            rw [himg] at hc
            exact Option.noConfusion hc
          · exact absurd hc hp
        · intro hc
          rw [he4] at hc
          exact OpResult.noConfusion hc

theorem save_png_failure_conditions_witness :
    (savePngExecute W0 "x").2.2 = .CANCELLED :=
  (save_png_failure_conditions W0 "x").1.mpr
    (Or.inr (Or.inl ⟨cubeObj, by decide, by decide⟩))

/-! ### C6: failure conditions of the target-binding resolver -/

/-- World with an existing bound image but a non-positive configured width. -/
def WZ : World := { W1 with scene := { W1.scene with webcam_image_width := 0 } }

/-- C6 counterexample: a state in which the target object is present and a
mesh, the configured width is non-positive (0), and yet the resolver
succeeds — it returns a pair and records no error — because the size check
is only reached when the bound image does not exist yet.  This refutes the
claim that the resolver fails whenever the configured width or height is
non-positive. -/
theorem resolver_c6_counterexample :
    WZ.scene.webcam_image_width ≤ 0 ∧
    getObject WZ.data "Cube" = some cubeObj ∧
    cubeObj.otype = "MESH" ∧
    (ensureMaterialForObject WZ (some "Cube")).2 ≠ none ∧
    (ensureMaterialForObject WZ (some "Cube")).1.state.last_error = "" := by
  refine ⟨by decide, by decide, rfl, by decide, by decide⟩

/-- C6 (amended): the resolver fails — returning (None, None), recording a
non-empty error message, and performing no other side effect (data blocks,
scene and the running flag are untouched) — exactly when the target object
is absent, or it is not a mesh, or the bound image does not exist yet and
the configured width or height is non-positive. -/
theorem resolver_failure_conditions (w : World) (objName : Option String) :
    ((ensureMaterialForObject w objName).2 = none ↔
      (objName.bind (fun n => getObject w.data n) = none ∨
        ∃ o, objName.bind (fun n => getObject w.data n) = some o ∧
          (o.otype ≠ "MESH" ∨
            (getImage w.data (ensureImgName w.scene o.name) = none ∧
              (w.scene.webcam_image_width ≤ 0 ∨ w.scene.webcam_image_height ≤ 0))))) ∧
    ((ensureMaterialForObject w objName).2 = none →
      (ensureMaterialForObject w objName).1.data = w.data ∧
      (ensureMaterialForObject w objName).1.scene = w.scene ∧
      (ensureMaterialForObject w objName).1.state.running = w.state.running ∧
      (ensureMaterialForObject w objName).1.state.last_error ≠ "") := by
  rcases hobj : objName.bind (fun n => getObject w.data n) with _ | o
  · have he1 : ensureMaterialForObject w objName =
        ({ w with state := setError w.state "No target object selected." }, none) := by
      unfold ensureMaterialForObject
      rw [hobj]
    constructor
    · rw [he1]
      exact iff_of_true rfl (Or.inl rfl)
    · intro _
      rw [he1]
      refine ⟨rfl, rfl, rfl, ?_⟩
      show "No target object selected." ≠ ""
      decide
  · by_cases hm : o.otype = "MESH"
    · rcases himg : getImage w.data (ensureImgName w.scene o.name) with _ | i
      · by_cases hd : w.scene.webcam_image_width ≤ 0 ∨ w.scene.webcam_image_height ≤ 0
        · have he : ensureMaterialForObject w objName =
              ({ w with state := setError w.state "Invalid image size." }, none) := by
            unfold ensureMaterialForObject
            rw [hobj]
            dsimp only
            rw [if_neg (not_not_intro hm)]
            rw [himg]
            dsimp only
            rw [if_pos hd]
          constructor
          · rw [he]
            exact iff_of_true rfl (Or.inr ⟨o, rfl, Or.inr ⟨himg, hd⟩⟩)
          · intro _
            rw [he]
            refine ⟨rfl, rfl, rfl, ?_⟩
            show "Invalid image size." ≠ ""
            decide
        · have he : (ensureMaterialForObject w objName).2 ≠ none := by
            unfold ensureMaterialForObject
            rw [hobj]
            dsimp only
            rw [if_neg (not_not_intro hm)]
            rw [himg]
            dsimp only
            rw [if_neg hd]
            exact ensureMaterialRest_ne_none _ _ _
          constructor
          · refine iff_of_false he ?_
            rintro (hc | ⟨o', ho', hc | ⟨hc1, hc2⟩⟩)
            · exact Option.noConfusion hc
            · rw [Option.some.injEq] at ho'
              rw [← ho'] at hc
              exact hc hm
            · exact hd hc2
          · intro hc
            exact absurd hc he
      · have he : (ensureMaterialForObject w objName).2 ≠ none := by
          unfold ensureMaterialForObject
          rw [hobj]
          dsimp only
          rw [if_neg (not_not_intro hm)]
          rw [himg]
          exact ensureMaterialRest_ne_none _ _ _
        constructor
        · refine iff_of_false he ?_
          rintro (hc | ⟨o', ho', hc | ⟨hc1, hc2⟩⟩)
          · exact Option.noConfusion hc
          · rw [Option.some.injEq] at ho'
            rw [← ho'] at hc
            exact hc hm
          · rw [Option.some.injEq] at ho'
            rw [← ho'] at hc1
            rw [himg] at hc1
            exact Option.noConfusion hc1
        · intro hc
          exact absurd hc he
    · have he : ensureMaterialForObject w objName =
          ({ w with state := setError w.state "Target object must be a mesh." }, none) := by
        unfold ensureMaterialForObject
        rw [hobj]
        dsimp only
        rw [if_pos hm]
      constructor
      · rw [he]
        exact iff_of_true rfl (Or.inr ⟨o, rfl, Or.inl hm⟩)
      · intro _
        rw [he]
        refine ⟨rfl, rfl, rfl, ?_⟩
        show "Target object must be a mesh." ≠ ""
        decide

theorem resolver_failure_conditions_witness :
    (ensureMaterialForObject W0 none).2 = none :=
  (resolver_failure_conditions W0 none).1.mpr (Or.inl rfl)

/-! ### C9: shape and range of the per-tick pixel buffer -/

theorem chunk_flatMap_length (g : Nat → List ℚ) (c : Nat)
    (hg : ∀ k, (g k).length = c) :
    ∀ n, ((List.range n).flatMap g).length = n * c := by
  intro n
  induction n with
  | zero => simp
  | succ m ih =>
    rw [List.range_succ, List.flatMap_append, List.length_append, ih]
    have h1 : ([m].flatMap g).length = c := by
      simp [hg]
    rw [h1, Nat.succ_mul]

theorem chunk_flatMap_getD (g : Nat → List ℚ) (hg : ∀ k, (g k).length = 4)
    (d : ℚ) : ∀ n k j, k < n → j < 4 →
    ((List.range n).flatMap g).getD (4 * k + j) d = (g k).getD j d := by
  intro n
  induction n with
  | zero =>
    intro k j hk _
    exact absurd hk (Nat.not_lt_zero k)
  | succ m ih =>
    intro k j hk hj
    rw [List.range_succ, List.flatMap_append]
    rcases Nat.lt_or_ge k m with h | h
    · rw [List.getD_append]
      · exact ih k j h hj
      · rw [chunk_flatMap_length g 4 hg m]
        omega
    · have hkm : k = m := by omega
      subst hkm
      rw [List.getD_append_right]
      · rw [chunk_flatMap_length g 4 hg k]
        have hidx : 4 * k + j - k * 4 = j := by
          rw [Nat.mul_comm]
          omega
        rw [hidx]
        simp
      · rw [chunk_flatMap_length g 4 hg k]
        omega

/-- C9: for every successfully read frame, the pixel buffer written into the
bound image on that tick (lines 145-157, modelled by `framePixels`) is a
height×width×4 buffer — `size.2 * size.1 * 4` values — whose alpha channel
(every fourth value) is exactly 1, and whose red, green and blue channels
are 8-bit source values divided by 255, hence in [0, 1]. -/
theorem frame_buffer_spec (size : Nat × Nat) (f : RawFrame) :
    (framePixels size f).length = size.2 * size.1 * 4 ∧
    (∀ k, k < size.2 * size.1 → (framePixels size f).getD (4 * k + 3) 0 = 1) ∧
    (∀ q ∈ framePixels size f, 0 ≤ q ∧ q ≤ 1 ∧ ∃ v : ℕ, v ≤ 255 ∧ q = (v : ℚ) / 255) := by
  refine ⟨?_, ?_, ?_⟩
  · unfold framePixels rgbaFlatten
    exact chunk_flatMap_length (rgbaChunk (bgr2rgb (resizeFrame f size)) size.1) 4
      (fun _ => rfl) (size.2 * size.1)
  · intro k hk
    unfold framePixels rgbaFlatten
    rw [chunk_flatMap_getD (rgbaChunk (bgr2rgb (resizeFrame f size)) size.1)
      (fun _ => rfl) 0 (size.2 * size.1) k 3 hk (by omega)]
    rfl
  · intro q hq
    unfold framePixels rgbaFlatten at hq
    rw [List.mem_flatMap] at hq
    obtain ⟨k, hk, hq⟩ := hq
    unfold rgbaChunk at hq
    simp only [List.mem_cons, List.mem_singleton, List.not_mem_nil, or_false] at hq
    have hval : ∃ v : ℕ, v ≤ 255 ∧ q = (v : ℚ) / 255 := by
      rcases hq with h | h | h | h
      · refine ⟨((bgr2rgb (resizeFrame f size)).px (k / size.1) (k % size.1) 0).val, ?_, h⟩
        have := ((bgr2rgb (resizeFrame f size)).px (k / size.1) (k % size.1) 0).isLt
        omega
      · refine ⟨((bgr2rgb (resizeFrame f size)).px (k / size.1) (k % size.1) 1).val, ?_, h⟩
        have := ((bgr2rgb (resizeFrame f size)).px (k / size.1) (k % size.1) 1).isLt
        omega
      · refine ⟨((bgr2rgb (resizeFrame f size)).px (k / size.1) (k % size.1) 2).val, ?_, h⟩
        have := ((bgr2rgb (resizeFrame f size)).px (k / size.1) (k % size.1) 2).isLt
        omega
      · refine ⟨255, le_refl 255, ?_⟩
        rw [h]
        norm_num
    obtain ⟨v, hv, hqv⟩ := hval
    refine ⟨?_, ?_, v, hv, hqv⟩
    · rw [hqv]
      apply div_nonneg
      · exact_mod_cast Nat.zero_le v
      · norm_num
    · rw [hqv]
      rw [div_le_one (by norm_num : (0:ℚ) < 255)]
      exact_mod_cast hv

/-- Sample raw frame. -/
def testFrame : RawFrame := { rows := 1, cols := 1, px := fun _ _ _ => 0 }

theorem frame_buffer_spec_witness :
    (framePixels (1, 1) testFrame).getD 3 0 = 1 :=
  (frame_buffer_spec (1, 1) testFrame).2.1 0 (by decide)

/-! ### C3: a failed frame read leaves image, running flag and error untouched -/

theorem rebind_none (w : World) (op : OpState)
    (h : w.scene.webcam_target_object = none) : rebind w op = (w, op, false) := by
  unfold rebind
  rw [h]

theorem rebind_same (w : World) (op : OpState) (cur : String)
    (hsc : w.scene.webcam_target_object = some cur) (hob : op.obj = some cur) :
    rebind w op = (w, op, true) := by
  unfold rebind
  rw [hsc]
  dsimp only
  rw [if_pos hob]

theorem rebind_resolve_fail (w : World) (op : OpState) (cur : String)
    (hsc : w.scene.webcam_target_object = some cur) (hob : ¬op.obj = some cur)
    (he : (ensureMaterialForObject w (some cur)).2 = none) :
    rebind w op = ((ensureMaterialForObject w (some cur)).1, op, false) := by
  unfold rebind
  rw [hsc]
  dsimp only
  rw [if_neg hob]
  rw [he]

theorem rebind_resolve_success (w : World) (op : OpState) (cur : String)
    (img : Image) (mat : Material)
    (hsc : w.scene.webcam_target_object = some cur) (hob : ¬op.obj = some cur)
    (he : (ensureMaterialForObject w (some cur)).2 = some (img, mat)) :
    rebind w op = ((ensureMaterialForObject w (some cur)).1, { op with obj := some cur, img := some img.name, size := some (img.width, img.height) }, true) := by
  unfold rebind
  rw [hsc]
  dsimp only
  rw [if_neg hob]
  rw [he]

/-- C3: on a TIMER tick whose frame read reports failure (`ret = False`,
modelled by the `none` read oracle), provided the tick actually reaches the
read (the target-tracking prologue `rebind` falls through), the handler
returns PASS_THROUGH, writes to no image (every pre-existing image data
block, in particular the bound one, is found unchanged afterwards), touches
no host resource, and leaves the whole global state — running flag and
last-error string included — exactly as before. -/
theorem modal_read_failure (w : World) (op : OpState) (host : Host)
    (h : (rebind w op).2.2 = true) :
    modal w op host .TIMER none =
      ((rebind w op).1, (rebind w op).2.1, host, .PASS_THROUGH) ∧
    (rebind w op).1.state = w.state ∧
    (∀ n i, getImage w.data n = some i → getImage (rebind w op).1.data n = some i) := by
  refine ⟨?_, ?_, ?_⟩
  · unfold modal
    rcases hr : rebind w op with ⟨w1, op1, pr⟩
    cases pr
    · rfl
    · rfl
  · rcases hsc : w.scene.webcam_target_object with _ | cur
    · rw [rebind_none w op hsc]
    · by_cases hob : op.obj = some cur
      · rw [rebind_same w op cur hsc hob]
      · cases he : (ensureMaterialForObject w (some cur)).2 with
        | none =>
          rw [rebind_resolve_fail w op cur hsc hob he] at h
          exact Bool.noConfusion h
        | some p =>
          rcases p with ⟨img, mat⟩
          rw [rebind_resolve_success w op cur img mat hsc hob he]
          dsimp only
          rcases ensure_state_or w (some cur) with hs | hn
          · exact hs
          · rw [he] at hn
            exact Option.noConfusion hn
  · intro n i hi
    rcases hsc : w.scene.webcam_target_object with _ | cur
    · rw [rebind_none w op hsc]
      exact hi
    · by_cases hob : op.obj = some cur
      · rw [rebind_same w op cur hsc hob]
        exact hi
      · cases he : (ensureMaterialForObject w (some cur)).2 with
        | none =>
          rw [rebind_resolve_fail w op cur hsc hob he] at h
          exact Bool.noConfusion h
        | some p =>
          rcases p with ⟨img, mat⟩
          rw [rebind_resolve_success w op cur img mat hsc hob he]
          exact ensure_getImage_stable w (some cur) n i hi

/-- Sample operator state of a running session bound to the sample image. -/
def opB : OpState :=
  { timer := some 0, cap := some 0, img := some "Webcam_Feed_Cube",
    size := some (64, 32), obj := some "Cube" }

theorem modal_read_failure_witness :
    modal WR opB host0 .TIMER none =
      ((rebind WR opB).1, (rebind WR opB).2.1, host0, .PASS_THROUGH) :=
  (modal_read_failure WR opB host0 (by decide)).1

/-! ### Branch characterizations of the resolver -/

theorem ensure_obj_none_eq (w : World) (x : Option String)
    (h : x.bind (fun n => getObject w.data n) = none) :
    ensureMaterialForObject w x =
      ({ w with state := setError w.state "No target object selected." }, none) := by
  unfold ensureMaterialForObject
  rw [h]

theorem ensure_not_mesh_eq (w : World) (x : Option String) (o : Obj)
    (h : x.bind (fun n => getObject w.data n) = some o) (hm : ¬o.otype = "MESH") :
    ensureMaterialForObject w x =
      ({ w with state := setError w.state "Target object must be a mesh." }, none) := by
  unfold ensureMaterialForObject
  rw [h]
  dsimp only
  rw [if_pos hm]

theorem ensure_found_eq (w : World) (x : Option String) (o : Obj) (i : Image)
    (h : x.bind (fun n => getObject w.data n) = some o) (hm : o.otype = "MESH")
    (hi : getImage w.data (ensureImgName w.scene o.name) = some i) :
    ensureMaterialForObject w x = ensureMaterialRest w o i := by
  unfold ensureMaterialForObject
  rw [h]
  dsimp only
  rw [if_neg (not_not_intro hm)]
  rw [hi]

theorem ensure_size_fail_eq (w : World) (x : Option String) (o : Obj)
    (h : x.bind (fun n => getObject w.data n) = some o) (hm : o.otype = "MESH")
    (hi : getImage w.data (ensureImgName w.scene o.name) = none)
    (hd : w.scene.webcam_image_width ≤ 0 ∨ w.scene.webcam_image_height ≤ 0) :
    ensureMaterialForObject w x =
      ({ w with state := setError w.state "Invalid image size." }, none) := by
  unfold ensureMaterialForObject
  rw [h]
  dsimp only
  rw [if_neg (not_not_intro hm)]
  rw [hi]
  dsimp only
  rw [if_pos hd]

theorem ensure_created_eq (w : World) (x : Option String) (o : Obj)
    (h : x.bind (fun n => getObject w.data n) = some o) (hm : o.otype = "MESH")
    (hi : getImage w.data (ensureImgName w.scene o.name) = none)
    (hd : ¬(w.scene.webcam_image_width ≤ 0 ∨ w.scene.webcam_image_height ≤ 0)) :
    ensureMaterialForObject w x =
      ensureMaterialRest { w with data := addImage w.data (newImage (ensureImgName w.scene o.name) w.scene.webcam_image_width.toNat w.scene.webcam_image_height.toNat) } o (newImage (ensureImgName w.scene o.name) w.scene.webcam_image_width.toNat w.scene.webcam_image_height.toNat) := by
  unfold ensureMaterialForObject
  rw [h]
  dsimp only
  rw [if_neg (not_not_intro hm)]
  rw [hi]
  dsimp only
  rw [if_neg hd]

/-- On success the resolver's returned image is retrievable, unchanged,
under its own name from the resulting data blocks. -/
theorem ensure_success_getImage (w : World) (x : Option String)
    (img : Image) (mat : Material)
    (he : (ensureMaterialForObject w x).2 = some (img, mat)) :
    getImage (ensureMaterialForObject w x).1.data img.name = some img := by
  rcases hobj : x.bind (fun n => getObject w.data n) with _ | o
  · rw [ensure_obj_none_eq w x hobj] at he
    exact Option.noConfusion he
  · by_cases hm : o.otype = "MESH"
    · rcases himg : getImage w.data (ensureImgName w.scene o.name) with _ | i
      · by_cases hd : w.scene.webcam_image_width ≤ 0 ∨ w.scene.webcam_image_height ≤ 0
        · rw [ensure_size_fail_eq w x o hobj hm himg hd] at he
          exact Option.noConfusion he
        · rw [ensure_created_eq w x o hobj hm himg hd] at he ⊢
          obtain ⟨m, hms⟩ := ensureMaterialRest_isSome
            { w with data := addImage w.data (newImage (ensureImgName w.scene o.name) w.scene.webcam_image_width.toNat w.scene.webcam_image_height.toNat) } o
            (newImage (ensureImgName w.scene o.name) w.scene.webcam_image_width.toNat w.scene.webcam_image_height.toNat)
          rw [hms] at he
          rw [Option.some.injEq, Prod.mk.injEq] at he
          obtain ⟨he1, _⟩ := he
          rw [← he1]
          unfold getImage
          rw [ensureMaterialRest_images]
          show (w.data.images ++ [newImage (ensureImgName w.scene o.name) w.scene.webcam_image_width.toNat w.scene.webcam_image_height.toNat]).find? (fun z => z.name == ensureImgName w.scene o.name) = _
          rw [List.find?_append]
          unfold getImage at himg
          rw [himg]
          simp [newImage]
      · rw [ensure_found_eq w x o i hobj hm himg] at he ⊢
        obtain ⟨m, hms⟩ := ensureMaterialRest_isSome w o i
        rw [hms] at he
        rw [Option.some.injEq, Prod.mk.injEq] at he
        obtain ⟨he1, _⟩ := he
        rw [← he1]
        have hname : i.name = ensureImgName w.scene o.name := by
          unfold getImage at himg
          have h2 := List.find?_some himg
          simpa using h2
        unfold getImage
        rw [ensureMaterialRest_images, hname]
        unfold getImage at himg
        exact himg
    · rw [ensure_not_mesh_eq w x o hobj hm] at he
      exact Option.noConfusion he

/-! ### C5: image dimensions are fixed at creation -/

/-- C5: (1) with width=64 and height=32 configured before the bound image
first exists, the resolver creates it with exactly those dimensions;
(2) the resolver never modifies an existing image data block — whatever
width/height are configured afterwards, re-resolving finds the image record
(dimensions included) unchanged, since there is no resize path; (3) whenever
a tick re-binds the session, the resize target `self._size` is taken from
the bound image's existing size (its width/height fields), not from the
configured resolution. -/
theorem image_dims_fixed_at_creation :
    (∀ (w : World) (n : String) (o : Obj),
      getObject w.data n = some o → o.otype = "MESH" →
      getImage w.data (ensureImgName w.scene o.name) = none →
      w.scene.webcam_image_width = 64 → w.scene.webcam_image_height = 32 →
      ∃ img mat, (ensureMaterialForObject w (some n)).2 = some (img, mat) ∧
        img.width = 64 ∧ img.height = 32) ∧
    (∀ (w : World) (x : Option String) (n : String) (i : Image),
      getImage w.data n = some i →
      getImage (ensureMaterialForObject w x).1.data n = some i) ∧
    (∀ (w : World) (op : OpState) (cur : String) (img : Image) (mat : Material),
      w.scene.webcam_target_object = some cur → ¬op.obj = some cur →
      (ensureMaterialForObject w (some cur)).2 = some (img, mat) →
      (rebind w op).2.1.size = some (img.width, img.height) ∧
      getImage (rebind w op).1.data img.name = some img) := by
  refine ⟨?_, ?_, ?_⟩
  · intro w n o ho hm himg hw hh
    have hbind : (some n).bind (fun m => getObject w.data m) = some o := ho
    have hd : ¬(w.scene.webcam_image_width ≤ 0 ∨ w.scene.webcam_image_height ≤ 0) := by
      rw [hw, hh]
      decide
    obtain ⟨m, hms⟩ := ensureMaterialRest_isSome
      { w with data := addImage w.data (newImage (ensureImgName w.scene o.name) w.scene.webcam_image_width.toNat w.scene.webcam_image_height.toNat) } o
      (newImage (ensureImgName w.scene o.name) w.scene.webcam_image_width.toNat w.scene.webcam_image_height.toNat)
    refine ⟨newImage (ensureImgName w.scene o.name) w.scene.webcam_image_width.toNat w.scene.webcam_image_height.toNat, m, ?_, ?_, ?_⟩
    · rw [ensure_created_eq w (some n) o hbind hm himg hd]
      exact hms
    · show w.scene.webcam_image_width.toNat = 64
      rw [hw]
      rfl
    · show w.scene.webcam_image_height.toNat = 32
      rw [hh]
      rfl
  · intro w x n i hi
    exact ensure_getImage_stable w x n i hi
  · intro w op cur img mat hsc hob he
    rw [rebind_resolve_success w op cur img mat hsc hob he]
    exact ⟨rfl, ensure_success_getImage w (some cur) img mat he⟩

set_option maxRecDepth 4000 in
theorem image_dims_fixed_at_creation_witness :
    ∃ img mat, (ensureMaterialForObject W0 (some "Cube")).2 = some (img, mat) ∧
      img.width = 64 ∧ img.height = 32 :=
  image_dims_fixed_at_creation.1 W0 "Cube" cubeObj (by decide) rfl (by decide) rfl rfl

/-! ### C1: idempotence of the target-binding resolver -/

theorem list_map_id {α : Type} (l : List α) (f : α → α) (h : ∀ a ∈ l, f a = a) :
    l.map f = l := by
  induction l with
  | nil => rfl
  | cons a t ih =>
    rw [List.map_cons, h a (List.mem_cons_self a t), ih]
    intro b hb
    exact h b (List.mem_cons_of_mem a hb)

theorem find?_map_replace {α : Type} (key : α → String) (l : List α) (m : α)
    (hmem : ∃ y ∈ l, key y = key m) :
    (l.map fun y => if key y == key m then m else y).find?
      (fun y => key y == key m) = some m := by
  induction l with
  | nil =>
    obtain ⟨y, hy, _⟩ := hmem
    exact absurd hy (List.not_mem_nil y)
  | cons a t ih =>
    rw [List.map_cons]
    by_cases ha : key a = key m
    · have hb : (key a == key m) = true := by simp [ha]
      rw [hb]
      simp only [if_true]
      rw [List.find?_cons_of_pos _ (by simp)]
    · have hb : (key a == key m) = false := by simp [ha]
      rw [hb]
      simp only [Bool.false_eq_true, if_false]
      rw [List.find?_cons_of_neg _ (by simp [ha])]
      apply ih
      obtain ⟨y, hy, hk⟩ := hmem
      rcases List.mem_cons.mp hy with h1 | h1
      · exact absurd (h1 ▸ hk) ha
      · exact ⟨y, h1, hk⟩

theorem mem_map_replace {α : Type} (key : α → String) (l : List α) (m : α) :
    ∀ y ∈ (l.map fun z => if key z == key m then m else z), key y = key m → y = m := by
  intro y hy hk
  obtain ⟨z, hz, hzy⟩ := List.mem_map.mp hy
  by_cases hzk : key z = key m
  · rw [← hzy]
    simp [hzk]
  · have hb : (key z == key m) = false := by simp [hzk]
    rw [hb] at hzy
    simp only [Bool.false_eq_true, if_false] at hzy
    rw [← hzy] at hk
    exact absurd hk hzk

theorem set_use_nodes_id (m : Material) (h : m.use_nodes = true) :
    { m with use_nodes := true } = m := by
  cases m
  simp_all

theorem ensureTexNode_id (m : Material)
    (h : ∃ nd ∈ m.nodes, nd.name = "Webcam Image") : ensureTexNode m = m := by
  unfold ensureTexNode
  obtain ⟨nd, hmem, hname⟩ := h
  have : (getNode m.nodes "Webcam Image").isSome = true := by
    unfold getNode
    rw [List.find?_isSome]
    exact ⟨nd, hmem, by simp [hname]⟩
  cases hg : getNode m.nodes "Webcam Image" with
  | none => rw [hg] at this; exact Bool.noConfusion this
  | some nd2 => rfl

theorem setTexImage_id (m : Material) (i : String)
    (h : ∀ nd ∈ m.nodes, nd.name = "Webcam Image" → nd.image = some i) :
    setTexImage m i = m := by
  unfold setTexImage
  dsimp only
  have hmap : m.nodes.map (fun nd => if nd.name == "Webcam Image" then { nd with image := some i } else nd) = m.nodes := by
    apply list_map_id
    intro nd hnd
    by_cases hx : nd.name = "Webcam Image"
    · have hb : (nd.name == "Webcam Image") = true := by simp [hx]
      rw [hb]
      simp only [if_true]
      have := h nd hnd hx
      cases nd
      simp_all
    · have hb : (nd.name == "Webcam Image") = false := by simp [hx]
      rw [hb]
      simp
  rw [hmap]

theorem ensureBsdfNode_id (m : Material)
    (h : ∃ nd ∈ m.nodes, nd.name = "Principled BSDF") : ensureBsdfNode m = m := by
  unfold ensureBsdfNode
  obtain ⟨nd, hmem, hname⟩ := h
  have : (getNode m.nodes "Principled BSDF").isSome = true := by
    unfold getNode
    rw [List.find?_isSome]
    exact ⟨nd, hmem, by simp [hname]⟩
  cases hg : getNode m.nodes "Principled BSDF" with
  | none => rw [hg] at this; exact Bool.noConfusion this
  | some nd2 => rfl

theorem ensureOutputNode_id (m : Material)
    (h : ∃ nd ∈ m.nodes, nd.name = "Material Output") : ensureOutputNode m = m := by
  unfold ensureOutputNode
  obtain ⟨nd, hmem, hname⟩ := h
  have : (getNode m.nodes "Material Output").isSome = true := by
    unfold getNode
    rw [List.find?_isSome]
    exact ⟨nd, hmem, by simp [hname]⟩
  cases hg : getNode m.nodes "Material Output" with
  | none => rw [hg] at this; exact Bool.noConfusion this
  | some nd2 => rfl

theorem ensureLink_id (ls : List NodeLink) (a b : Socket)
    (h : ∃ l ∈ ls, l.from_socket = a ∧ l.to_socket = b) : ensureLink ls a b = ls := by
  unfold ensureLink
  rw [if_pos]
  rw [List.any_eq_true]
  obtain ⟨l, hl, h1, h2⟩ := h
  exact ⟨l, hl, by simp [h1, h2]⟩

theorem material_eta (m : Material) :
    (Material.mk m.name m.use_nodes m.nodes m.links) = m := rfl

theorem obj_eta (o : Obj) : (Obj.mk o.name o.otype o.materials) = o := rfl

theorem putMaterial_id (d : BlendData) (m : Material)
    (hex : getMaterial d m.name = some m)
    (huniq : ∀ y ∈ d.materials, y.name = m.name → y = m) : putMaterial d m = d := by
  unfold putMaterial
  have hmem := List.mem_of_find?_eq_some hex
  have hpred := List.find?_some hex
  have hany : d.materials.any (fun x => x.name == m.name) = true :=
    List.any_eq_true.mpr ⟨m, hmem, hpred⟩
  rw [if_pos hany]
  have hmap : d.materials.map (fun x => if x.name == m.name then m else x) = d.materials := by
    apply list_map_id
    intro a ha
    by_cases hx : a.name = m.name
    · have hb : (a.name == m.name) = true := by simp [hx]
      rw [hb]
      simp only [if_true]
      exact (huniq a ha hx).symm
    · have hb : (a.name == m.name) = false := by simp [hx]
      rw [hb]
      simp
  rw [hmap]

theorem putObject_id (d : BlendData) (o : Obj)
    (huniq : ∀ y ∈ d.objects, y.name = o.name → y = o) : putObject d o = d := by
  unfold putObject
  have hmap : d.objects.map (fun x => if x.name == o.name then o else x) = d.objects := by
    apply list_map_id
    intro a ha
    by_cases hx : a.name = o.name
    · have hb : (a.name == o.name) = true := by simp [hx]
      rw [hb]
      simp only [if_true]
      exact (huniq a ha hx).symm
    · have hb : (a.name == o.name) = false := by simp [hx]
      rw [hb]
      simp
  rw [hmap]

theorem ensureTexNode_name (m : Material) : (ensureTexNode m).name = m.name := by
  unfold ensureTexNode
  split <;> rfl

theorem ensureTexNode_use_nodes (m : Material) :
    (ensureTexNode m).use_nodes = m.use_nodes := by
  unfold ensureTexNode
  split <;> rfl

theorem ensureTexNode_links (m : Material) : (ensureTexNode m).links = m.links := by
  unfold ensureTexNode
  split <;> rfl

theorem setTexImage_name (m : Material) (i : String) :
    (setTexImage m i).name = m.name := rfl

theorem setTexImage_use_nodes (m : Material) (i : String) :
    (setTexImage m i).use_nodes = m.use_nodes := rfl

theorem setTexImage_links (m : Material) (i : String) :
    (setTexImage m i).links = m.links := rfl

theorem ensureBsdfNode_name (m : Material) : (ensureBsdfNode m).name = m.name := by
  unfold ensureBsdfNode
  split <;> rfl

theorem ensureBsdfNode_use_nodes (m : Material) :
    (ensureBsdfNode m).use_nodes = m.use_nodes := by
  unfold ensureBsdfNode
  split <;> rfl

theorem ensureBsdfNode_links (m : Material) : (ensureBsdfNode m).links = m.links := by
  unfold ensureBsdfNode
  split <;> rfl

theorem ensureOutputNode_name (m : Material) : (ensureOutputNode m).name = m.name := by
  unfold ensureOutputNode
  split <;> rfl

theorem ensureOutputNode_use_nodes (m : Material) :
    (ensureOutputNode m).use_nodes = m.use_nodes := by
  unfold ensureOutputNode
  split <;> rfl

theorem ensureOutputNode_links (m : Material) :
    (ensureOutputNode m).links = m.links := by
  unfold ensureOutputNode
  split <;> rfl

theorem ensureTexNode_has (m : Material) :
    ∃ nd ∈ (ensureTexNode m).nodes, nd.name = "Webcam Image" := by
  unfold ensureTexNode
  cases hg : getNode m.nodes "Webcam Image" with
  | some nd =>
    refine ⟨nd, List.mem_of_find?_eq_some hg, ?_⟩
    have := List.find?_some hg
    simpa using this
  | none =>
    refine ⟨{ newNode "ShaderNodeTexImage" with name := "Webcam Image", label := "Webcam Image" }, ?_, rfl⟩
    exact List.mem_append_right _ (List.mem_cons_self _ _)

theorem setTexImage_sets (m : Material) (i : String) :
    ∀ nd ∈ (setTexImage m i).nodes, nd.name = "Webcam Image" → nd.image = some i := by
  intro nd hnd hname
  unfold setTexImage at hnd
  dsimp only at hnd
  obtain ⟨z, hz, hzy⟩ := List.mem_map.mp hnd
  by_cases hzk : z.name = "Webcam Image"
  · have hb : (z.name == "Webcam Image") = true := by simp [hzk]
    rw [hb] at hzy
    simp only [if_true] at hzy
    rw [← hzy]
  · have hb : (z.name == "Webcam Image") = false := by simp [hzk]
    rw [hb] at hzy
    simp only [Bool.false_eq_true, if_false] at hzy
    rw [← hzy] at hname
    exact absurd hname hzk

theorem setTexImage_has (m : Material) (i : String) (n0 : String)
    (h : ∃ nd ∈ m.nodes, nd.name = n0) :
    ∃ nd ∈ (setTexImage m i).nodes, nd.name = n0 := by
  obtain ⟨nd, hnd, hname⟩ := h
  unfold setTexImage
  dsimp only
  by_cases hzk : nd.name = "Webcam Image"
  · exact ⟨{ nd with image := some i }, List.mem_map.mpr ⟨nd, hnd, by simp [hzk]⟩, hname⟩
  · exact ⟨nd, List.mem_map.mpr ⟨nd, hnd, by simp [hzk]⟩, hname⟩

theorem ensureBsdfNode_has (m : Material) :
    ∃ nd ∈ (ensureBsdfNode m).nodes, nd.name = "Principled BSDF" := by
  unfold ensureBsdfNode
  cases hg : getNode m.nodes "Principled BSDF" with
  | some nd =>
    refine ⟨nd, List.mem_of_find?_eq_some hg, ?_⟩
    have := List.find?_some hg
    simpa using this
  | none =>
    refine ⟨newNode "ShaderNodeBsdfPrincipled", ?_, rfl⟩
    exact List.mem_append_right _ (List.mem_cons_self _ _)

theorem ensureBsdfNode_preserves_has (m : Material) (n0 : String)
    (h : ∃ nd ∈ m.nodes, nd.name = n0) :
    ∃ nd ∈ (ensureBsdfNode m).nodes, nd.name = n0 := by
  obtain ⟨nd, hnd, hname⟩ := h
  unfold ensureBsdfNode
  cases getNode m.nodes "Principled BSDF" with
  | some _ => exact ⟨nd, hnd, hname⟩
  | none => exact ⟨nd, List.mem_append_left _ hnd, hname⟩

theorem ensureBsdfNode_preserves_teximg (m : Material) (i : String)
    (h : ∀ nd ∈ m.nodes, nd.name = "Webcam Image" → nd.image = some i) :
    ∀ nd ∈ (ensureBsdfNode m).nodes, nd.name = "Webcam Image" → nd.image = some i := by
  intro nd hnd hname
  unfold ensureBsdfNode at hnd
  revert hnd
  cases getNode m.nodes "Principled BSDF" with
  | some _ => exact fun hnd => h nd hnd hname
  | none =>
    intro hnd
    rcases List.mem_append.mp hnd with h1 | h1
    · exact h nd h1 hname
    · rw [List.mem_singleton] at h1
      rw [h1] at hname
      exact absurd hname (by decide)

theorem ensureOutputNode_has (m : Material) :
    ∃ nd ∈ (ensureOutputNode m).nodes, nd.name = "Material Output" := by
  unfold ensureOutputNode
  cases hg : getNode m.nodes "Material Output" with
  | some nd =>
    refine ⟨nd, List.mem_of_find?_eq_some hg, ?_⟩
    have := List.find?_some hg
    simpa using this
  | none =>
    refine ⟨newNode "ShaderNodeOutputMaterial", ?_, rfl⟩
    exact List.mem_append_right _ (List.mem_cons_self _ _)

theorem ensureOutputNode_preserves_has (m : Material) (n0 : String)
    (h : ∃ nd ∈ m.nodes, nd.name = n0) :
    ∃ nd ∈ (ensureOutputNode m).nodes, nd.name = n0 := by
  obtain ⟨nd, hnd, hname⟩ := h
  unfold ensureOutputNode
  cases getNode m.nodes "Material Output" with
  | some _ => exact ⟨nd, hnd, hname⟩
  | none => exact ⟨nd, List.mem_append_left _ hnd, hname⟩

theorem ensureOutputNode_preserves_teximg (m : Material) (i : String)
    (h : ∀ nd ∈ m.nodes, nd.name = "Webcam Image" → nd.image = some i) :
    ∀ nd ∈ (ensureOutputNode m).nodes, nd.name = "Webcam Image" → nd.image = some i := by
  intro nd hnd hname
  unfold ensureOutputNode at hnd
  revert hnd
  cases getNode m.nodes "Material Output" with
  | some _ => exact fun hnd => h nd hnd hname
  | none =>
    intro hnd
    rcases List.mem_append.mp hnd with h1 | h1
    · exact h nd h1 hname
    · rw [List.mem_singleton] at h1
      rw [h1] at hname
      exact absurd hname (by decide)

theorem ensureLink_present (ls : List NodeLink) (a b : Socket) :
    ∃ l ∈ ensureLink ls a b, l.from_socket = a ∧ l.to_socket = b := by
  unfold ensureLink
  by_cases h : ls.any (fun l => decide (l.from_socket = a ∧ l.to_socket = b)) = true
  · rw [if_pos h]
    obtain ⟨l, hl, hp⟩ := List.any_eq_true.mp h
    exact ⟨l, hl, by simpa using hp⟩
  · rw [if_neg h]
    exact ⟨⟨a, b⟩, List.mem_append_right _ (List.mem_cons_self _ _), rfl, rfl⟩

theorem ensureLink_preserves (ls : List NodeLink) (a b c d : Socket)
    (h : ∃ l ∈ ls, l.from_socket = a ∧ l.to_socket = b) :
    ∃ l ∈ ensureLink ls c d, l.from_socket = a ∧ l.to_socket = b := by
  obtain ⟨l, hl, hp⟩ := h
  unfold ensureLink
  split
  · exact ⟨l, hl, hp⟩
  · exact ⟨l, List.mem_append_left _ hl, hp⟩

theorem putMaterial_objects (d : BlendData) (m : Material) :
    (putMaterial d m).objects = d.objects := by
  unfold putMaterial
  split <;> rfl

theorem putMaterial_get (d : BlendData) (m : Material) :
    getMaterial (putMaterial d m) m.name = some m ∧
    ∀ y ∈ (putMaterial d m).materials, y.name = m.name → y = m := by
  unfold putMaterial getMaterial
  by_cases hany : d.materials.any (fun x => x.name == m.name) = true
  · rw [if_pos hany]
    constructor
    · obtain ⟨y, hy, hp⟩ := List.any_eq_true.mp hany
      exact find?_map_replace Material.name d.materials m ⟨y, hy, by simpa using hp⟩
    · exact mem_map_replace Material.name d.materials m
  · rw [if_neg hany]
    have hnone : d.materials.find? (fun x => x.name == m.name) = none := by
      rw [List.find?_eq_none]
      intro y hy hp
      exact hany (List.any_eq_true.mpr ⟨y, hy, hp⟩)
    constructor
    · show (d.materials ++ [m]).find? (fun x => x.name == m.name) = some m
      rw [List.find?_append, hnone]
      simp
    · intro y hy hn
      rcases List.mem_append.mp hy with h1 | h1
      · have := List.find?_eq_none.mp hnone y h1
        simp only [beq_iff_eq] at this
        exact absurd hn this
      · rw [List.mem_singleton] at h1
        exact h1

theorem putObject_materials (d : BlendData) (o : Obj) :
    (putObject d o).materials = d.materials := rfl

theorem putObject_get (d : BlendData) (o : Obj)
    (hmem : ∃ y ∈ d.objects, y.name = o.name) :
    getObject (putObject d o) o.name = some o ∧
    ∀ y ∈ (putObject d o).objects, y.name = o.name → y = o := by
  unfold putObject getObject
  exact ⟨find?_map_replace Obj.name d.objects o hmem,
    mem_map_replace Obj.name d.objects o⟩

theorem head?_set_zero (l : List String) (a : String) (h : l ≠ []) :
    (l.set 0 a).head? = some a := by
  cases l with
  | nil => exact absurd rfl h
  | cons b t => rfl

theorem set_zero_ne_nil (l : List String) (a : String) (h : l ≠ []) :
    l.set 0 a ≠ [] := by
  cases l with
  | nil => exact absurd rfl h
  | cons b t => exact List.cons_ne_nil a t

theorem rest_mat_post (w : World) (o : Obj) (i : Image) (m : Material)
    (hm : (ensureMaterialRest w o i).2 = some (i, m)) :
    m.name = matBaseName w.scene ++ "_" ++ o.name ∧
    m.use_nodes = true ∧
    (∃ nd ∈ m.nodes, nd.name = "Webcam Image") ∧
    (∀ nd ∈ m.nodes, nd.name = "Webcam Image" → nd.image = some i.name) ∧
    (∃ nd ∈ m.nodes, nd.name = "Principled BSDF") ∧
    (∃ nd ∈ m.nodes, nd.name = "Material Output") ∧
    (∃ l ∈ m.links, l.from_socket = Socket.mk "Webcam Image" "Color" ∧
      l.to_socket = Socket.mk "Principled BSDF" "Base Color") ∧
    (∃ l ∈ m.links, l.from_socket = Socket.mk "Principled BSDF" "BSDF" ∧
      l.to_socket = Socket.mk "Material Output" "Surface") := by
  have hname0 : (match getMaterial w.data (matBaseName w.scene ++ "_" ++ o.name) with
      | some mm => mm
      | none => newMaterial (matBaseName w.scene ++ "_" ++ o.name)).name
      = matBaseName w.scene ++ "_" ++ o.name := by
    cases hg : getMaterial w.data (matBaseName w.scene ++ "_" ++ o.name) with
    | some mm =>
      unfold getMaterial at hg
      have := List.find?_some hg
      simpa using this
    | none => rfl
  unfold ensureMaterialRest at hm
  dsimp only at hm
  rw [Option.some.injEq, Prod.mk.injEq] at hm
  obtain ⟨_, hm2⟩ := hm
  rw [← hm2]
  generalize hg0 : (match getMaterial w.data (matBaseName w.scene ++ "_" ++ o.name) with
      | some mm => mm
      | none => newMaterial (matBaseName w.scene ++ "_" ++ o.name)) = m0 at hname0 ⊢
  refine ⟨?_, ?_, ?_, ?_, ?_, ?_, ?_, ?_⟩
  · show (ensureOutputNode (ensureBsdfNode (setTexImage (ensureTexNode
      { m0 with use_nodes := true }) i.name))).name
      = matBaseName w.scene ++ "_" ++ o.name
    rw [ensureOutputNode_name, ensureBsdfNode_name, setTexImage_name, ensureTexNode_name]
    exact hname0
  · show (ensureOutputNode (ensureBsdfNode (setTexImage (ensureTexNode
      { m0 with use_nodes := true }) i.name))).use_nodes = true
    rw [ensureOutputNode_use_nodes, ensureBsdfNode_use_nodes, setTexImage_use_nodes,
      ensureTexNode_use_nodes]
  · exact ensureOutputNode_preserves_has _ _ (ensureBsdfNode_preserves_has _ _
      (setTexImage_has _ _ _ (ensureTexNode_has _)))
  · exact ensureOutputNode_preserves_teximg _ _ (ensureBsdfNode_preserves_teximg _ _
      (setTexImage_sets _ _))
  · exact ensureOutputNode_preserves_has _ _ (ensureBsdfNode_has _)
  · exact ensureOutputNode_has _
  · exact ensureLink_preserves _ _ _ _ _ (ensureLink_present _ _ _)
  · exact ensureLink_present _ _ _

theorem rest_world_post (w : World) (o : Obj) (i : Image) (m : Material)
    (hm : (ensureMaterialRest w o i).2 = some (i, m))
    (hoin : ∃ y ∈ w.data.objects, y.name = o.name) :
    ∃ o', o'.name = o.name ∧ o'.otype = o.otype ∧
      o'.materials ≠ [] ∧ o'.materials.head? = some m.name ∧
      getObject (ensureMaterialRest w o i).1.data o'.name = some o' ∧
      (∀ y ∈ (ensureMaterialRest w o i).1.data.objects, y.name = o.name → y = o') ∧
      getMaterial (ensureMaterialRest w o i).1.data m.name = some m ∧
      (∀ y ∈ (ensureMaterialRest w o i).1.data.materials, y.name = m.name → y = m) := by
  have hmn : m.name = matBaseName w.scene ++ "_" ++ o.name := (rest_mat_post w o i m hm).1
  unfold ensureMaterialRest at hm ⊢
  dsimp only at hm ⊢
  rw [Option.some.injEq, Prod.mk.injEq] at hm
  obtain ⟨_, hm2⟩ := hm
  rw [hm2]
  refine ⟨if o.materials.isEmpty then { o with materials := [matBaseName w.scene ++ "_" ++ o.name] } else { o with materials := o.materials.set 0 (matBaseName w.scene ++ "_" ++ o.name) }, ?_, ?_, ?_, ?_, ?_, ?_, ?_, ?_⟩
  · split <;> rfl
  · split <;> rfl
  · split
    · exact List.cons_ne_nil _ _
    · next hne =>
      apply set_zero_ne_nil
      intro hnil
      exact hne (by rw [hnil]; rfl)
  · rw [hmn]
    split
    · rfl
    · next hne =>
      apply head?_set_zero
      intro hnil
      exact hne (by rw [hnil]; rfl)
  · apply (putObject_get _ _ ?_).1
    rw [putMaterial_objects]
    obtain ⟨y, hy, hyn⟩ := hoin
    refine ⟨y, hy, ?_⟩
    rw [hyn]
    split <;> rfl
  · intro y hy hn
    have hname' : (if o.materials.isEmpty then { o with materials := [matBaseName w.scene ++ "_" ++ o.name] } else { o with materials := o.materials.set 0 (matBaseName w.scene ++ "_" ++ o.name) }).name = o.name := by
      split <;> rfl
    refine (putObject_get _ _ ?_).2 y hy (by rw [hname']; exact hn)
    rw [putMaterial_objects]
    obtain ⟨z, hz, hzn⟩ := hoin
    exact ⟨z, hz, by rw [hzn, hname']⟩
  · exact (putMaterial_get w.data m).1
  · exact (putMaterial_get w.data m).2

/-- The state the resolver establishes on success: the (updated) target
object, the bound image and the wired material, with every lookup the
resolver performs answered by exactly these records. -/
structure Resolved (w : World) (o : Obj) (img : Image) (mat : Material) : Prop where
  obj_mesh : o.otype = "MESH"
  img_name : img.name = ensureImgName w.scene o.name
  img_found : getImage w.data img.name = some img
  mat_name : mat.name = matBaseName w.scene ++ "_" ++ o.name
  mat_exists : getMaterial w.data mat.name = some mat
  mat_unique : ∀ y ∈ w.data.materials, y.name = mat.name → y = mat
  use_nodes : mat.use_nodes = true
  tex : ∃ nd ∈ mat.nodes, nd.name = "Webcam Image"
  tex_img : ∀ nd ∈ mat.nodes, nd.name = "Webcam Image" → nd.image = some img.name
  bsdf : ∃ nd ∈ mat.nodes, nd.name = "Principled BSDF"
  outp : ∃ nd ∈ mat.nodes, nd.name = "Material Output"
  link1 : ∃ l ∈ mat.links, l.from_socket = Socket.mk "Webcam Image" "Color" ∧
    l.to_socket = Socket.mk "Principled BSDF" "Base Color"
  link2 : ∃ l ∈ mat.links, l.from_socket = Socket.mk "Principled BSDF" "BSDF" ∧
    l.to_socket = Socket.mk "Material Output" "Surface"
  slot_nonempty : o.materials ≠ []
  slot_head : o.materials.head? = some mat.name
  obj_unique : ∀ y ∈ w.data.objects, y.name = o.name → y = o

/-- Under `Resolved`, running the resolver is the identity on the world and
returns the recorded pair: every get finds, every assignment re-assigns the
value already in place, and `ensure_link` appends nothing. -/
theorem ensure_of_resolved (w : World) (x : Option String) (o : Obj)
    (img : Image) (mat : Material)
    (hobj : x.bind (fun n => getObject w.data n) = some o)
    (hr : Resolved w o img mat) :
    ensureMaterialForObject w x = (w, some (img, mat)) := by
  have himgfound : getImage w.data (ensureImgName w.scene o.name) = some img := by
    rw [← hr.img_name]
    exact hr.img_found
  rw [ensure_found_eq w x o img hobj hr.obj_mesh himgfound]
  unfold ensureMaterialRest
  dsimp only
  have hmat : getMaterial w.data (matBaseName w.scene ++ "_" ++ o.name) = some mat := by
    rw [← hr.mat_name]
    exact hr.mat_exists
  rw [hmat]
  dsimp only
  rw [set_use_nodes_id mat hr.use_nodes]
  rw [ensureTexNode_id mat hr.tex]
  rw [setTexImage_id mat img.name hr.tex_img]
  rw [ensureBsdfNode_id mat hr.bsdf]
  rw [ensureOutputNode_id mat hr.outp]
  rw [ensureLink_id mat.links _ _ hr.link1]
  rw [ensureLink_id mat.links _ _ hr.link2]
  rw [material_eta mat]
  have hobj' : (if o.materials.isEmpty then { o with materials := [matBaseName w.scene ++ "_" ++ o.name] } else { o with materials := o.materials.set 0 (matBaseName w.scene ++ "_" ++ o.name) }) = o := by
    rw [← hr.mat_name]
    cases hl : o.materials with
    | nil => exact absurd hl hr.slot_nonempty
    | cons b t =>
      have hb : b = mat.name := by
        have hh := hr.slot_head
        rw [hl] at hh
        simpa using hh
      simp only [List.isEmpty_cons, Bool.false_eq_true, if_false]
      rw [List.set_cons_zero]
      rw [← hb, ← hl]
  rw [hobj']
  rw [putMaterial_id w.data mat hr.mat_exists hr.mat_unique]
  rw [putObject_id w.data o hr.obj_unique]

/-- A successful resolver run establishes `Resolved` for the updated
target object. -/
theorem ensure_success_resolved (w : World) (x : Option String) (o : Obj)
    (img : Image) (mat : Material)
    (hobj : x.bind (fun n => getObject w.data n) = some o) (hm : o.otype = "MESH")
    (he : (ensureMaterialForObject w x).2 = some (img, mat)) :
    ∃ o', (x.bind (fun n => getObject (ensureMaterialForObject w x).1.data n) = some o') ∧
      Resolved (ensureMaterialForObject w x).1 o' img mat := by
  obtain ⟨n, hx⟩ : ∃ n, x = some n := by
    cases x with
    | none => rw [Option.none_bind] at hobj; exact Option.noConfusion hobj
    | some n => exact ⟨n, rfl⟩
  subst hx
  rw [Option.some_bind] at hobj ⊢
  have hon : o.name = n := by
    unfold getObject at hobj
    have := List.find?_some hobj
    simpa using this
  have hoin : ∃ y ∈ w.data.objects, y.name = o.name := by
    unfold getObject at hobj
    exact ⟨o, List.mem_of_find?_eq_some hobj, rfl⟩
  have himgf := ensure_success_getImage w (some n) img mat he
  rcases himg : getImage w.data (ensureImgName w.scene o.name) with _ | i
  · by_cases hd : w.scene.webcam_image_width ≤ 0 ∨ w.scene.webcam_image_height ≤ 0
    · rw [ensure_size_fail_eq w (some n) o hobj hm himg hd] at he
      exact Option.noConfusion he
    · have heq := ensure_created_eq w (some n) o hobj hm himg hd
      rw [heq] at he himgf ⊢
      obtain ⟨mm, hms⟩ := ensureMaterialRest_isSome
        { w with data := addImage w.data (newImage (ensureImgName w.scene o.name) w.scene.webcam_image_width.toNat w.scene.webcam_image_height.toNat) } o
        (newImage (ensureImgName w.scene o.name) w.scene.webcam_image_width.toNat w.scene.webcam_image_height.toNat)
      rw [hms] at he
      rw [Option.some.injEq, Prod.mk.injEq] at he
      obtain ⟨hei, hem⟩ := he
      subst hei
      subst hem
      obtain ⟨o', ho'name, ho'type, ho'ne, ho'head, ho'get, ho'uniq, hmget, hmuniq⟩ :=
        rest_world_post _ o _ mm hms hoin
      refine ⟨o', ?_, ?_⟩
      · have hno' : n = o'.name := by rw [ho'name, hon]
        rw [hno']
        exact ho'get
      · refine ⟨?_, ?_, himgf, ?_, hmget, hmuniq, ?_, ?_, ?_, ?_, ?_, ?_, ?_, ho'ne, ho'head, ?_⟩
        · rw [ho'type]
          exact hm
        · show ensureImgName w.scene o.name = ensureImgName w.scene o'.name
          rw [ho'name]
        · show mm.name = matBaseName w.scene ++ "_" ++ o'.name
          rw [ho'name]
          exact (rest_mat_post _ o _ mm hms).1
        · exact (rest_mat_post _ o _ mm hms).2.1
        · exact (rest_mat_post _ o _ mm hms).2.2.1
        · exact (rest_mat_post _ o _ mm hms).2.2.2.1
        · exact (rest_mat_post _ o _ mm hms).2.2.2.2.1
        · exact (rest_mat_post _ o _ mm hms).2.2.2.2.2.1
        · exact (rest_mat_post _ o _ mm hms).2.2.2.2.2.2.1
        · exact (rest_mat_post _ o _ mm hms).2.2.2.2.2.2.2
        · intro y hy hn
          exact ho'uniq y hy (by rw [← ho'name]; exact hn)
  · have heq := ensure_found_eq w (some n) o i hobj hm himg
    have hiname : i.name = ensureImgName w.scene o.name := by
      unfold getImage at himg
      have := List.find?_some himg
      simpa using this
    rw [heq] at he himgf ⊢
    obtain ⟨mm, hms⟩ := ensureMaterialRest_isSome w o i
    rw [hms] at he
    rw [Option.some.injEq, Prod.mk.injEq] at he
    obtain ⟨hei, hem⟩ := he
    subst hei
    subst hem
    obtain ⟨o', ho'name, ho'type, ho'ne, ho'head, ho'get, ho'uniq, hmget, hmuniq⟩ :=
      rest_world_post w o _ mm hms hoin
    refine ⟨o', ?_, ?_⟩
    · have hno' : n = o'.name := by rw [ho'name, hon]
      rw [hno']
      exact ho'get
    · refine ⟨?_, ?_, himgf, ?_, hmget, hmuniq, ?_, ?_, ?_, ?_, ?_, ?_, ?_, ho'ne, ho'head, ?_⟩
      · rw [ho'type]
        exact hm
      · show i.name = ensureImgName w.scene o'.name
        rw [ho'name]
        exact hiname
      · show mm.name = matBaseName w.scene ++ "_" ++ o'.name
        rw [ho'name]
        exact (rest_mat_post w o _ mm hms).1
      · exact (rest_mat_post w o _ mm hms).2.1
      · exact (rest_mat_post w o _ mm hms).2.2.1
      · exact (rest_mat_post w o _ mm hms).2.2.2.1
      · exact (rest_mat_post w o _ mm hms).2.2.2.2.1
      · exact (rest_mat_post w o _ mm hms).2.2.2.2.2.1
      · exact (rest_mat_post w o _ mm hms).2.2.2.2.2.2.1
      · exact (rest_mat_post w o _ mm hms).2.2.2.2.2.2.2
      · intro y hy hn
        exact ho'uniq y hy (by rw [← ho'name]; exact hn)

/-- C1: in every valid state (target object present and a mesh, any
image/material name prefixes, any pre-existing data blocks), running the
target-binding resolver twice in a row gives the same result both times and
the second run changes nothing at all: it returns the same (image, material)
pair and leaves the whole world — in particular the material's node and
link lists — exactly as the first run left it, so no shading node and no
link is duplicated. -/
theorem ensure_material_idempotent (w : World) (x : Option String) (o : Obj)
    (ho : x.bind (fun n => getObject w.data n) = some o) (hm : o.otype = "MESH") :
    ensureMaterialForObject (ensureMaterialForObject w x).1 x =
      ensureMaterialForObject w x := by
  cases he : (ensureMaterialForObject w x).2 with
  | some p =>
    rcases p with ⟨img, mat⟩
    obtain ⟨o', hbind', hres⟩ := ensure_success_resolved w x o img mat ho hm he
    rw [ensure_of_resolved (ensureMaterialForObject w x).1 x o' img mat hbind' hres]
    rw [← he]
  | none =>
    rcases himg : getImage w.data (ensureImgName w.scene o.name) with _ | i
    · by_cases hd : w.scene.webcam_image_width ≤ 0 ∨ w.scene.webcam_image_height ≤ 0
      · have heq := ensure_size_fail_eq w x o ho hm himg hd
        rw [heq]
        dsimp only
        have heq2 := ensure_size_fail_eq
          { w with state := setError w.state "Invalid image size." } x o ho hm himg hd
        rw [heq2]
        rfl
      · have heq := ensure_created_eq w x o ho hm himg hd
        rw [heq] at he
        obtain ⟨mm, hms⟩ := ensureMaterialRest_isSome _ _ _
        rw [hms] at he
        exact Option.noConfusion he
    · have heq := ensure_found_eq w x o i ho hm himg
      rw [heq] at he
      obtain ⟨mm, hms⟩ := ensureMaterialRest_isSome _ _ _
      rw [hms] at he
      exact Option.noConfusion he

set_option maxRecDepth 4000 in
theorem ensure_material_idempotent_witness :
    ensureMaterialForObject (ensureMaterialForObject W0 (some "Cube")).1 (some "Cube") =
      ensureMaterialForObject W0 (some "Cube") :=
  ensure_material_idempotent W0 (some "Cube") cubeObj (by decide) rfl
